import Mathlib

/-!
Shallow embedding of `mpl2latex.py` (Matplotlib2LaTeX).

The program wraps matplotlib's process-wide mutable state: the `rcParams`
configuration mapping and the active backend.  We model that state as an
explicit `MplState` record threaded through every operation; values stored
in the configuration are strings, booleans or numbers (`RcValue`), and
font sizes are modelled as rationals (the Python code only moves them
around, it never does float arithmetic on them).

The external matplotlib library facts the code relies on are modelled
explicitly and minimally:
  - `rcParamsDefault` is the library's default configuration, restricted
    to the keys this program ever touches, with matplotlib's documented
    default values (in particular `text.usetex` defaults to `false`);
  - `dict.update` / `RcParams.update` is `updateMap` (overwrite exactly
    the keys present in the argument, in order);
  - `matplotlib.pyplot.rc(group, **kw)` sets the key `group.kw`;
  - `matplotlib.use(b)` sets the active backend;
  - `matplotlib.pyplot.get_backend()` reads it.

Python reference assignment matters here: `self.original_rcParams =
matplotlib.rcParams` binds a reference to the one global `RcParams`
object, it does not copy it.  We model this with `RcRef`: the field holds
`RcRef.globalRef`, and dereferencing a `globalRef` reads the *current*
global configuration.  A genuine deep copy would be `RcRef.copyRef snap`.
-/

/-- Configuration values stored in matplotlib rcParams: strings, booleans
or numbers. -/
inductive RcValue where
  | str  (s : String)
  | bool (b : Bool)
  | num  (q : ℚ)
deriving DecidableEq

/-- The contents of an rcParams mapping: total over key strings (keys the
program never writes keep whatever value the initial state gave them). -/
abbrev RcMap := String → RcValue

/-- The process-wide mutable matplotlib state: the global `RcParams`
object's contents and the active backend. -/
@[ext]
structure MplState where
  rcParams : RcMap
  backend  : String

/-- Semantics of `dict.update(d)` on the global configuration: overwrite
exactly the keys listed in `d`, in order (later entries win). -/
def updateMap (c : RcMap) (d : List (String × RcValue)) : RcMap :=
  d.foldl (fun c kv => fun k => if k = kv.1 then kv.2 else c k) c

/-- Modelled matplotlib environment: `matplotlib.rcParamsDefault`
restricted to the keys this program touches, with matplotlib's documented
default values. -/
def rcParamsDefault : List (String × RcValue) :=
  [ ("pgf.texsystem",    .str "xelatex"),
    ("font.family",      .str "sans-serif"),
    ("text.usetex",      .bool false),
    ("pgf.rcfonts",      .bool true),
    ("pgf.preamble",     .str ""),
    ("font.size",        .num 10),
    ("axes.titlesize",   .str "large"),
    ("axes.labelsize",   .str "medium"),
    ("xtick.labelsize",  .str "medium"),
    ("ytick.labelsize",  .str "medium"),
    ("legend.fontsize",  .str "medium"),
    ("figure.titlesize", .str "large") ]

/-- Modelled matplotlib environment: `matplotlib.rcsetup.all_backends`
(opaque to the program; it only stores the list). -/
def all_backends_env : List String := ["pgf", "TkAgg", "Agg", "pdf", "svg"]

/-- A Python reference to an `RcParams` object: either an alias of the one
global object (`matplotlib.rcParams`), or an independently owned copy. -/
inductive RcRef where
  | globalRef
  | copyRef (snap : RcMap)

/-- Dereference: an alias of the global object reads the current global
configuration; a copy reads its own stored snapshot. -/
def RcRef.deref (r : RcRef) (s : MplState) : RcMap :=
  match r with
  | .globalRef    => s.rcParams
  | .copyRef snap => snap

/-- The attributes of a `Matplotlib2LaTeX` instance (the figure itself is
opaque to every claim and is modelled separately by `FigEnv`). -/
structure Matplotlib2LaTeX where
  SMALL_SIZE   : ℚ
  MEDIUM_SIZE  : ℚ
  BIGGER_SIZE  : ℚ
  BIGGEST_SIZE : ℚ
  all_backends : List String
  original_backend  : String
  original_rcParams : RcRef
  packages : List String

/-- The dict literal passed to `matplotlib.rcParams.update` in the
constructor. -/
def latexOverrides (packages : List String) : List (String × RcValue) :=
  [ ("pgf.texsystem", .str "pdflatex"),
    ("font.family",   .str "serif"),
    ("text.usetex",   .bool true),
    ("pgf.rcfonts",   .bool false),
    ("pgf.preamble",  .str (String.intercalate "\n" packages)) ]

/-- The seven `matplotlib.pyplot.rc(group, size)` calls in the
constructor, as the key/value writes they perform, in order. -/
def rcSizeCalls (SMALL MEDIUM BIGGER BIGGEST : ℚ) : List (String × RcValue) :=
  [ ("font.size",        .num SMALL),
    ("axes.titlesize",   .num BIGGER),
    ("axes.labelsize",   .num MEDIUM),
    ("xtick.labelsize",  .num SMALL),
    ("ytick.labelsize",  .num SMALL),
    ("legend.fontsize",  .num MEDIUM),
    ("figure.titlesize", .num BIGGEST) ]

/-- `Matplotlib2LaTeX.__init__`: records the current backend, binds
`original_rcParams` as an alias of the global `RcParams` object
(`self.original_rcParams = matplotlib.rcParams` is reference assignment),
defaults `packages` to the single UTF-8 inputenc line when `None`, merges
the LaTeX override dict into the global configuration, then performs the
seven font-size `rc` calls.  Returns the constructed instance and the
mutated global state. -/
def Matplotlib2LaTeX.init (SMALL MEDIUM BIGGER BIGGEST : ℚ)
    (packages : Option (List String)) (s : MplState) :
    Matplotlib2LaTeX × MplState :=
  let original_backend := s.backend
  let original_rcParams : RcRef := .globalRef
  let pkgs := packages.getD ["\\usepackage[utf8]{inputenc}"]
  let rc1 := updateMap s.rcParams (latexOverrides pkgs)
  let rc2 := updateMap rc1 (rcSizeCalls SMALL MEDIUM BIGGER BIGGEST)
  (⟨SMALL, MEDIUM, BIGGER, BIGGEST, all_backends_env,
    original_backend, original_rcParams, pkgs⟩,
   ⟨rc2, s.backend⟩)

/-- The global state right after construction. -/
def initState (SMALL MEDIUM BIGGER BIGGEST : ℚ)
    (packages : Option (List String)) (s : MplState) : MplState :=
  (Matplotlib2LaTeX.init SMALL MEDIUM BIGGER BIGGEST packages s).2

/-- `Matplotlib2LaTeX.reset_backend`: `matplotlib.use(backend)`, with the
argument defaulting to `original_backend`. -/
def Matplotlib2LaTeX.reset_backend (self : Matplotlib2LaTeX)
    (backend : Option String) (s : MplState) : MplState :=
  let b := backend.getD self.original_backend
  ⟨s.rcParams, b⟩

/-- `Matplotlib2LaTeX.reset`: defaults `backend` to `original_backend` and
`rcparams` to `self.original_rcParams` (a local the body then never
uses — the code overwrites the global configuration with
`matplotlib.rcParamsDefault` instead), then resets the backend. -/
def Matplotlib2LaTeX.reset (self : Matplotlib2LaTeX)
    (rcparams : Option RcMap) (backend : Option String) (s : MplState) :
    MplState :=
  let b := backend.getD self.original_backend
  let _rcparams := rcparams.getD (self.original_rcParams.deref s)
  let s1 : MplState := ⟨updateMap s.rcParams rcParamsDefault, s.backend⟩
  self.reset_backend (some b) s1

/-- Behaviour of the opaque figure object inside `save_fig`: whether its
`tight_layout` and `savefig` calls raise. -/
structure FigEnv where
  tightLayoutRaises : Bool
  savefigRaises     : Bool

/-- `Matplotlib2LaTeX.save_fig`: switch to the save backend, run
`tight_layout` when `tight`, run `savefig`, then `reset()`.  There is no
try/finally: execution stops at the first call that raises, and the pair
returned is the global state at that point together with the propagating
error (`none` on normal completion). -/
def Matplotlib2LaTeX.save_fig (self : Matplotlib2LaTeX) (env : FigEnv)
    (PATH : String) (backend : String) (tight : Bool) (s : MplState) :
    MplState × Option String :=
  let _ := PATH
  let s1 : MplState := ⟨s.rcParams, backend⟩
  if tight && env.tightLayoutRaises then (s1, some "tight_layout raised")
  else if env.savefigRaises then (s1, some "savefig raised")
  else (self.reset none none s1, none)

/-- One enter/exit pair: construct the scope on state `s`, then call
`reset()` with default arguments. -/
def cycle (SMALL MEDIUM BIGGER BIGGEST : ℚ)
    (packages : Option (List String)) (s : MplState) : MplState :=
  let r := Matplotlib2LaTeX.init SMALL MEDIUM BIGGER BIGGEST packages s
  r.1.reset none none r.2

/-- The configuration keys written by the constructor (the Override Set). -/
def overrideKeys : List String :=
  [ "pgf.texsystem", "font.family", "text.usetex", "pgf.rcfonts",
    "pgf.preamble", "font.size", "axes.titlesize", "axes.labelsize",
    "xtick.labelsize", "ytick.labelsize", "legend.fontsize",
    "figure.titlesize" ]

/-- `latex_figsize`: pure figure-size helper.  `fig_width_pt =
columnwidth*wf`, converted at 1/72.27 inches per point, height =
width*hf.  Generic over the number field so concrete claims evaluate in
ℚ while the golden-ratio default is stated in ℝ. -/
def latex_figsize {α : Type} [Field α] (wf hf columnwidth : α) : α × α :=
  let fig_width_pt := columnwidth * wf
  let inches_per_pt : α := 1 / (7227 / 100)
  let fig_width := fig_width_pt * inches_per_pt
  let fig_height := fig_width * hf
  (fig_width, fig_height)

/-- Concrete initial state used by the counterexamples: a configuration
holding non-default values (`font.size` = 14, `text.usetex` = false,
everything else the string "original") with the TkAgg backend active. -/
def sampleState : MplState :=
  ⟨fun k => if k = "font.size" then .num 14
    else if k = "text.usetex" then .bool false
    else .str "original", "TkAgg"⟩

/-! ## General lemmas about `updateMap` -/

/-- Updating with the empty dict is the identity. -/
theorem updateMap_nil (c : RcMap) : updateMap c [] = c := rfl

/-- Unfolding one entry of an update. -/
theorem updateMap_cons (c : RcMap) (kv : String × RcValue) (d : List (String × RcValue)) :
    updateMap c (kv :: d) = updateMap (fun k => if k = kv.1 then kv.2 else c k) d := rfl

/-- A key not named in the dict keeps its previous value. -/
theorem updateMap_apply_not_mem (c : RcMap) (d : List (String × RcValue)) (k : String)
    (h : ∀ kv ∈ d, k ≠ kv.1) : updateMap c d k = c k := by
  induction d generalizing c with
  | nil => rfl
  | cons kv tl ih =>
    have hk : k ≠ kv.1 := h kv (by simp)
    have htl : ∀ kv' ∈ tl, k ≠ kv'.1 := fun kv' h' => h kv' (by simp [h'])
    rw [updateMap_cons, ih _ htl]
    simp [hk]

/-- The value of a key named in the dict does not depend on the previous
configuration. -/
theorem updateMap_apply_indep (c c' : RcMap) (d : List (String × RcValue)) (k : String)
    (h : ∃ kv ∈ d, k = kv.1) : updateMap c d k = updateMap c' d k := by
  induction d generalizing c c' with
  | nil => simp at h
  | cons kv tl ih =>
    rw [updateMap_cons, updateMap_cons]
    by_cases htl : ∃ kv' ∈ tl, k = kv'.1
    · exact ih _ _ htl
    · have hk : k = kv.1 := by
        obtain ⟨kv', hmem, heq⟩ := h
        rcases List.mem_cons.mp hmem with h1 | h1
        · exact h1 ▸ heq
        · exact absurd ⟨kv', h1, heq⟩ htl
      have hnot : ∀ kv' ∈ tl, k ≠ kv'.1 := by
        intro kv' hm
        intro hc
        exact htl ⟨kv', hm, hc⟩
      rw [updateMap_apply_not_mem _ _ _ hnot, updateMap_apply_not_mem _ _ _ hnot]
      simp [hk]

/-! ## Shape lemmas for the embedded operations -/

/-- The configuration after construction is the two update batches applied
to the initial configuration. -/
theorem initState_rcParams (a b c d : ℚ) (pkgs : Option (List String)) (s : MplState) :
    (initState a b c d pkgs s).rcParams
      = updateMap (updateMap s.rcParams
          (latexOverrides (pkgs.getD ["\\usepackage[utf8]{inputenc}"])))
          (rcSizeCalls a b c d) := rfl

/-- Construction does not change the active backend. -/
theorem initState_backend (a b c d : ℚ) (pkgs : Option (List String)) (s : MplState) :
    (initState a b c d pkgs s).backend = s.backend := rfl

/-- `reset` always overwrites the configuration with the library defaults,
whatever its arguments. -/
theorem reset_rcParams (self : Matplotlib2LaTeX) (rcp : Option RcMap)
    (bk : Option String) (s : MplState) :
    (self.reset rcp bk s).rcParams = updateMap s.rcParams rcParamsDefault := rfl

/-- The configuration after one enter/exit pair. -/
theorem cycle_rcParams (a b c d : ℚ) (p : Option (List String)) (s : MplState) :
    (cycle a b c d p s).rcParams
      = updateMap (initState a b c d p s).rcParams rcParamsDefault := rfl

/-- One enter/exit pair returns the backend to its initial value. -/
theorem cycle_backend (a b c d : ℚ) (p : Option (List String)) (s : MplState) :
    (cycle a b c d p s).backend = s.backend := rfl

/-! ## Claim theorems -/

/-- Claim C1 (code evaluation at the failing input).  The claim states
that after the scope exits every key touched by the Override Set equals
the value recorded at scope entry.  The code instead overwrites the
configuration with `matplotlib.rcParamsDefault`: starting from
`sampleState`, whose `font.size` is 14, one enter/exit pair leaves
`font.size` at the library default 10, not at the pre-entry 14. -/
theorem reset_leaves_default_not_snapshot_value :
    (cycle 8 10 11 12 none sampleState).rcParams "font.size" = .num 10
    ∧ sampleState.rcParams "font.size" = .num 14 := by
  constructor <;> rfl

/-- Claim C2 (counterexample).  The claim states that when an inner
operation of `save_fig` raises, the release step still runs and the
configuration and backend are restored to the pre-entry state.  Concretely:
from `sampleState` (`text.usetex` false, backend TkAgg), construct the
scope and call `save_fig` with a raising `savefig`; the error propagates
(`isSome`), yet `text.usetex` is still true and the backend is still the
save backend `pgf` — nothing was restored. -/
theorem save_fig_error_leaves_scope_state :
    ((Matplotlib2LaTeX.init 8 10 11 12 none sampleState).1.save_fig ⟨false, true⟩
        "fig.pgf" "pgf" true (initState 8 10 11 12 none sampleState)).2.isSome = true
    ∧ ((Matplotlib2LaTeX.init 8 10 11 12 none sampleState).1.save_fig ⟨false, true⟩
        "fig.pgf" "pgf" true (initState 8 10 11 12 none sampleState)).1.rcParams "text.usetex"
        = .bool true
    ∧ ((Matplotlib2LaTeX.init 8 10 11 12 none sampleState).1.save_fig ⟨false, true⟩
        "fig.pgf" "pgf" true (initState 8 10 11 12 none sampleState)).1.backend = "pgf"
    ∧ sampleState.rcParams "text.usetex" = .bool false
    ∧ sampleState.backend = "TkAgg" := by
  refine ⟨rfl, rfl, rfl, rfl, rfl⟩

/-- Claim C2 (amended).  `save_fig` has no try/finally: whenever
`tight_layout` (with `tight` true) or `savefig` raises, the error
propagates with the global configuration unchanged from the scope state
and the backend left at the save backend; the release step runs only on
normal completion. -/
theorem save_fig_raise_skips_reset (self : Matplotlib2LaTeX) (env : FigEnv)
    (PATH backend : String) (tight : Bool) (s : MplState)
    (h : ((tight && env.tightLayoutRaises) || env.savefigRaises) = true) :
    ((self.save_fig env PATH backend tight s).2.isSome = true)
    ∧ (self.save_fig env PATH backend tight s).1.rcParams = s.rcParams
    ∧ (self.save_fig env PATH backend tight s).1.backend = backend := by
  unfold Matplotlib2LaTeX.save_fig
  split
  · exact ⟨rfl, rfl, rfl⟩
  · split
    · exact ⟨rfl, rfl, rfl⟩
    · rename_i h1 h2
      rw [Bool.or_eq_true] at h
      rcases h with h' | h' <;> simp_all

/-- Claim C2 (witness for the amended theorem): a concrete raising
`savefig` call, evaluated. -/
theorem save_fig_raise_skips_reset_witness :
    ((( ⟨8, 10, 11, 12, all_backends_env, "TkAgg", .globalRef, ["x"]⟩ :
        Matplotlib2LaTeX).save_fig ⟨false, true⟩ "f.pgf" "pgf" true sampleState).2.isSome = true)
    ∧ ((( ⟨8, 10, 11, 12, all_backends_env, "TkAgg", .globalRef, ["x"]⟩ :
        Matplotlib2LaTeX).save_fig ⟨false, true⟩ "f.pgf" "pgf" true sampleState).1.rcParams
        = sampleState.rcParams)
    ∧ ((( ⟨8, 10, 11, 12, all_backends_env, "TkAgg", .globalRef, ["x"]⟩ :
        Matplotlib2LaTeX).save_fig ⟨false, true⟩ "f.pgf" "pgf" true sampleState).1.backend
        = "pgf") :=
  save_fig_raise_skips_reset _ _ _ _ _ _ (by decide)

/-- Claim C3 (code evaluation at the failing input).  The claim states
that `original_rcParams` is a structural deep copy, unaffected by later
mutation of the live global configuration.  The constructor actually
binds `original_rcParams` as a reference to the global `RcParams` object:
constructing from `sampleState` (whose `font.size` is 14) and then
writing 99 into the live `font.size`, the snapshot reads back 99 — the
mutation shows through the alias. -/
theorem original_rcParams_aliases_global :
    (Matplotlib2LaTeX.init 8 10 11 12 none sampleState).1.original_rcParams.deref
        ⟨updateMap (initState 8 10 11 12 none sampleState).rcParams
          [("font.size", .num 99)], "pgf"⟩ "font.size" = .num 99
    ∧ sampleState.rcParams "font.size" = .num 14 := by
  constructor <;> rfl

/-- Claim C4 (counterexample).  The claim states that after exit the
active backend is still the target backend T and not the initial backend
B.  Concretely with B = TkAgg and T = pgf: a full successful
`save_fig` (which ends by calling `reset()`) leaves the backend at TkAgg,
which differs from pgf — the backend IS restored. -/
theorem exit_backend_restored_concrete :
    ((Matplotlib2LaTeX.init 8 10 11 12 none sampleState).1.save_fig ⟨false, false⟩
        "fig.pgf" "pgf" true (initState 8 10 11 12 none sampleState)).1.backend = "TkAgg"
    ∧ ("TkAgg" : String) ≠ "pgf" := by
  constructor
  · rfl
  · decide

/-- Claim C4 (amended).  `reset`, when called without a backend argument
(as `save_fig`'s exit path does), switches the active backend back to
`original_backend` — the backend captured at scope entry — for every
instance and every state. -/
theorem reset_default_restores_original_backend (self : Matplotlib2LaTeX)
    (rcp : Option RcMap) (s : MplState) :
    (self.reset rcp none s).backend = self.original_backend := rfl

/-- Claim C5.  After `reset` runs — with any `rcparams` and `backend`
arguments and from any state — the `text.usetex` flag is false, because
the configuration is overwritten with the library defaults, in which
`text.usetex` is false. -/
theorem reset_forces_usetex_false (self : Matplotlib2LaTeX) (rcp : Option RcMap)
    (bk : Option String) (s : MplState) :
    (self.reset rcp bk s).rcParams "text.usetex" = .bool false := by
  simp [Matplotlib2LaTeX.reset, Matplotlib2LaTeX.reset_backend, updateMap, rcParamsDefault]

/-- Claim C6.  For every choice of the four font sizes and preamble
lines, the constructor writes exactly the Override Set: the five LaTeX
keys (engine pdflatex, family serif, usetex true, rcfonts false, preamble
the lines joined by newline) and the seven size keys under the tier
assignment (base text and both tick labels = SMALL, axis label and
legend = MEDIUM, axis title = BIGGER, figure title = BIGGEST); every key
outside the Override Set keeps its previous value, and the active backend
is untouched. -/
theorem init_sets_override_set_frame (SMALL MEDIUM BIGGER BIGGEST : ℚ)
    (packages : List String) (s : MplState) :
    ((initState SMALL MEDIUM BIGGER BIGGEST (some packages) s).rcParams "pgf.texsystem" = .str "pdflatex"
     ∧ (initState SMALL MEDIUM BIGGER BIGGEST (some packages) s).rcParams "font.family" = .str "serif"
     ∧ (initState SMALL MEDIUM BIGGER BIGGEST (some packages) s).rcParams "text.usetex" = .bool true
     ∧ (initState SMALL MEDIUM BIGGER BIGGEST (some packages) s).rcParams "pgf.rcfonts" = .bool false
     ∧ (initState SMALL MEDIUM BIGGER BIGGEST (some packages) s).rcParams "pgf.preamble"
         = .str (String.intercalate "\n" packages)
     ∧ (initState SMALL MEDIUM BIGGER BIGGEST (some packages) s).rcParams "font.size" = .num SMALL
     ∧ (initState SMALL MEDIUM BIGGER BIGGEST (some packages) s).rcParams "xtick.labelsize" = .num SMALL
     ∧ (initState SMALL MEDIUM BIGGER BIGGEST (some packages) s).rcParams "ytick.labelsize" = .num SMALL
     ∧ (initState SMALL MEDIUM BIGGER BIGGEST (some packages) s).rcParams "axes.labelsize" = .num MEDIUM
     ∧ (initState SMALL MEDIUM BIGGER BIGGEST (some packages) s).rcParams "legend.fontsize" = .num MEDIUM
     ∧ (initState SMALL MEDIUM BIGGER BIGGEST (some packages) s).rcParams "axes.titlesize" = .num BIGGER
     ∧ (initState SMALL MEDIUM BIGGER BIGGEST (some packages) s).rcParams "figure.titlesize" = .num BIGGEST)
    ∧ (∀ k, k ∉ overrideKeys →
        (initState SMALL MEDIUM BIGGER BIGGEST (some packages) s).rcParams k = s.rcParams k)
    ∧ (initState SMALL MEDIUM BIGGER BIGGEST (some packages) s).backend = s.backend := by
  refine ⟨⟨rfl, rfl, rfl, rfl, rfl, rfl, rfl, rfl, rfl, rfl, rfl, rfl⟩, ?_, rfl⟩
  intro k hk
  simp only [overrideKeys, List.mem_cons, List.not_mem_nil, or_false, not_or] at hk
  obtain ⟨h1, h2, h3, h4, h5, h6, h7, h8, h9, h10, h11, h12⟩ := hk
  rw [initState_rcParams]
  have hov : ∀ kv ∈ latexOverrides ((some packages).getD ["\\usepackage[utf8]{inputenc}"]),
      k ≠ kv.1 := by
    intro kv hm
    simp only [latexOverrides, List.mem_cons, List.not_mem_nil, or_false] at hm
    rcases hm with rfl | rfl | rfl | rfl | rfl
    · exact h1
    · exact h2
    · exact h3
    · exact h4
    · exact h5
  have hsz : ∀ kv ∈ rcSizeCalls SMALL MEDIUM BIGGER BIGGEST, k ≠ kv.1 := by
    intro kv hm
    simp only [rcSizeCalls, List.mem_cons, List.not_mem_nil, or_false] at hm
    rcases hm with rfl | rfl | rfl | rfl | rfl | rfl | rfl
    · exact h6
    · exact h7
    · exact h8
    · exact h9
    · exact h10
    · exact h11
    · exact h12
  rw [updateMap_apply_not_mem _ _ _ hsz, updateMap_apply_not_mem _ _ _ hov]

/-- Claim C6 (witness): at concrete sizes, packages and state, the
untouched key `lines.linewidth` keeps its pre-entry value. -/
theorem init_sets_override_set_frame_witness :
    (initState 8 10 11 12 (some ["\\usepackage[utf8]{inputenc}"]) sampleState).rcParams
      "lines.linewidth" = sampleState.rcParams "lines.linewidth" :=
  (init_sets_override_set_frame 8 10 11 12 ["\\usepackage[utf8]{inputenc}"]
    sampleState).2.1 "lines.linewidth" (by decide)

/-- Claim C7 (counterexample).  The claim states that two enter/exit
pairs in sequence leave the configuration equal to the original S.
Starting from `sampleState` (`font.size` 14), two cycles leave
`font.size` at the library default 10 ≠ 14. -/
theorem double_cycle_differs_from_initial :
    (cycle 8 10 11 12 none (cycle 8 10 11 12 none sampleState)).rcParams "font.size" = .num 10
    ∧ sampleState.rcParams "font.size" = .num 14 := by
  constructor <;> rfl

/-- Claim C7 (amended).  The enter/exit pair is idempotent as a state
transformer: running it a second time, with the same parameters and no
intervening mutation, changes nothing further.  (The common result holds
the library defaults on the Override-Set keys, so it equals the original
S only when S already held the default values there.) -/
theorem cycle_idempotent (SMALL MEDIUM BIGGER BIGGEST : ℚ)
    (packages : Option (List String)) (s : MplState) :
    cycle SMALL MEDIUM BIGGER BIGGEST packages
        (cycle SMALL MEDIUM BIGGER BIGGEST packages s)
      = cycle SMALL MEDIUM BIGGER BIGGEST packages s := by
  ext k
  · rw [cycle_rcParams, cycle_rcParams, initState_rcParams, initState_rcParams,
      cycle_rcParams, initState_rcParams]
    by_cases hmem : ∃ kv ∈ rcParamsDefault, k = kv.1
    · exact updateMap_apply_indep _ _ _ _ hmem
    · push_neg at hmem
      have hd := hmem
      simp only [rcParamsDefault, List.mem_cons, List.not_mem_nil, or_false,
        forall_eq_or_imp, forall_eq] at hd
      obtain ⟨h1, h2, h3, h4, h5, h6, h7, h8, h9, h10, h11, h12⟩ := hd
      have hov : ∀ pk, ∀ kv ∈ latexOverrides pk, k ≠ kv.1 := by
        intro pk kv hm
        simp only [latexOverrides, List.mem_cons, List.not_mem_nil, or_false] at hm
        rcases hm with rfl | rfl | rfl | rfl | rfl
        · exact h1
        · exact h2
        · exact h3
        · exact h4
        · exact h5
      have hsz : ∀ kv ∈ rcSizeCalls SMALL MEDIUM BIGGER BIGGEST, k ≠ kv.1 := by
        intro kv hm
        simp only [rcSizeCalls, List.mem_cons, List.not_mem_nil, or_false] at hm
        rcases hm with rfl | rfl | rfl | rfl | rfl | rfl | rfl
        · exact h6
        · exact h7
        · exact h8
        · exact h9
        · exact h10
        · exact h11
        · exact h12
      rw [updateMap_apply_not_mem _ _ _ hmem, updateMap_apply_not_mem _ _ _ hsz,
        updateMap_apply_not_mem _ _ _ (hov _), updateMap_apply_not_mem _ _ _ hmem,
        updateMap_apply_not_mem _ _ _ hsz, updateMap_apply_not_mem _ _ _ (hov _)]
  · rfl

/-- Claim C8.  `latex_figsize` is a pure function returning
`[columnwidth·wf/72.27, width·hf]`: at (0.5, 0.5, 720) it returns exactly
(36000/7227, 18000/7227) ≈ (4.981, 2.491) inches; the general closed form
holds for all rational arguments; and at the source's default arguments
(wf = 0.5, hf = (√5−1)/2, columnwidth = 510) the height/width ratio is
exactly the golden-ratio conjugate. -/
theorem latex_figsize_values_and_golden_ratio :
    (latex_figsize (1/2 : ℚ) (1/2) 720 = (36000/7227, 18000/7227))
    ∧ (∀ wf hf cw : ℚ, latex_figsize wf hf cw
        = (cw * wf / (7227/100), cw * wf / (7227/100) * hf))
    ∧ ((latex_figsize (1/2 : ℝ) ((Real.sqrt 5 - 1)/2) 510).2
        / (latex_figsize (1/2 : ℝ) ((Real.sqrt 5 - 1)/2) 510).1 = (Real.sqrt 5 - 1)/2) := by
  refine ⟨by norm_num [latex_figsize], fun wf hf cw => by
    simp only [latex_figsize, Prod.mk.injEq]
    exact ⟨by ring, by ring⟩, ?_⟩
  show (510 * (1/2 : ℝ) * (1/(7227/100)) * ((Real.sqrt 5 - 1)/2))
      / (510 * (1/2 : ℝ) * (1/(7227/100))) = (Real.sqrt 5 - 1)/2
  rw [mul_div_cancel_left₀]
  norm_num

/-- Claim C9.  When no preamble is supplied (`packages = None`), the
constructor stores the single-element package list and writes exactly the
one UTF-8 input-encoding line as the preamble. -/
theorem default_preamble_single_utf8_line (a b c d : ℚ) (s : MplState) :
    (initState a b c d none s).rcParams "pgf.preamble"
      = .str "\\usepackage[utf8]{inputenc}"
    ∧ (Matplotlib2LaTeX.init a b c d none s).1.packages
      = ["\\usepackage[utf8]{inputenc}"] := ⟨rfl, rfl⟩

/-- Claim C10.  The `rcparams` argument of `reset` is dead: any two
values passed for it produce identical final states, and the resulting
configuration is always the library default set written over the current
configuration — never the caller-supplied mapping, never the stored
`original_rcParams`. -/
theorem reset_ignores_rcparams_argument (self : Matplotlib2LaTeX)
    (rcp1 rcp2 : Option RcMap) (bk : Option String) (s : MplState) :
    self.reset rcp1 bk s = self.reset rcp2 bk s
    ∧ (self.reset rcp1 bk s).rcParams = updateMap s.rcParams rcParamsDefault :=
  ⟨rfl, rfl⟩
